import Mathlib

/-!
A shallow embedding of the `oarkflow/errors` Go package (files
`errors.go` and `utils.go`) together with proofs of its documented
behavioral contracts.

Modelling conventions:

* A Go `error` interface value is a `GoErr`: the nil interface,
  a foreign error exposing only its `Error()` text (for example the
  result of `errors.New`), or a `*Error` of this package.
* The struct `Error` is mirrored by the structure `ErrorV`
  (field names and order as in the source); `ErrorV.toGoErr` is the
  struct viewed through the `error` interface.
* Call-stack introspection (`runtime.Caller` / `runtime.Callers` /
  `runtime.FuncForPC`) is a host-runtime collaborator: `newError`
  is parametrised by the captured caller context `CallerCtx`
  (origin file, origin line, the two captured program counters and
  their resolved frames).
* The two package-level mutable globals `DefaultCode` and
  `GlobalError` are threaded explicitly as a `Globals` value whose
  fields hold the globals' current values; `Globals.init` is their
  initial assignment from the source.
* `encoding/json` on the flat private record `wrappingError` (only
  strings, a bool and a list of flat `Trace` records) is a standard
  library collaborator assumed to round-trip that record faithfully,
  so the JSON wire form is modelled by the `WrappingError` value
  itself; `MarshalJSON`/`UnmarshalJSON` are the package's own code
  on either side of that boundary.
* A database scalar (`driver.Value`) is a `DriverValue`: SQL NULL,
  a byte slice holding the JSON document of a `WrappingError`
  (as produced by `Value()`), or any non-byte-sequence value.
-/

set_option autoImplicit false

/-- One captured stack frame (Go struct `Trace`): position in the
captured slice, resolved function name, file path and line. -/
structure Trace where
  index : Int
  function : String
  file : String
  line : Int

/-- A Go `error` interface value as seen by this package: the nil
interface, a foreign error carrying only its `Error()` text, or a
`*Error` of this package.  The `app` constructor carries the fields
of struct `Error` in source declaration order: `Code`, `Message`,
`Operation`, `Err`, `Additional`, `Internal`, `fileLine`, `pcs`. -/
inductive GoErr : Type where
  | nil : GoErr
  | foreign (msg : String) : GoErr
  | app (code message operation : String) (err : GoErr)
        (additional : List Trace) (internal : Bool)
        (fileLine : String) (pcs : List Nat) : GoErr

/-- The fields of the Go struct `Error`.  `Err = GoErr.nil` models a
nil cause (`Err error` being the nil interface). -/
structure ErrorV where
  Code : String
  Message : String
  Operation : String
  Err : GoErr
  Additional : List Trace
  Internal : Bool
  fileLine : String
  pcs : List Nat

/-- A `*Error` viewed as a Go `error` interface value. -/
def ErrorV.toGoErr (e : ErrorV) : GoErr :=
  .app e.Code e.Message e.Operation e.Err e.Additional e.Internal e.fileLine e.pcs

/-- Whether a Go `error` interface value is nil (`err == nil`). -/
def GoErr.isNil : GoErr → Bool
  | .nil => true
  | _ => false

/-- Application error code `CONFLICT` (an action cannot be performed). -/
def CONFLICT : String := "conflict"

/-- Application error code `INTERNAL` (error within the application). -/
def INTERNAL : String := "internal"

/-- Application error code `INVALID` (validation failed). -/
def INVALID : String := "invalid"

/-- Application error code `NOTFOUND` (entity does not exist). -/
def NOTFOUND : String := "not_found"

/-- Application error code `UNKNOWN` (application unknown error). -/
def UNKNOWN : String := "unknown"

/-- Application error code `MAXIMUMATTEMPTS` (more than allowed action). -/
def MAXIMUMATTEMPTS : String := "maximum_attempts"

/-- Application error code `EXPIRED` (subscription expired). -/
def EXPIRED : String := "expired"

/-- The current values of the package's two mutable globals:
`DefaultCode` (code used when none is specified) and `GlobalError`
(general message when no error message has been found). -/
structure Globals where
  defaultCode : String
  globalError : String

/-- The initial assignment of the globals in the source:
`DefaultCode = INTERNAL`, `GlobalError = "An error has occurred."`. -/
def Globals.init : Globals :=
  { defaultCode := INTERNAL, globalError := "An error has occurred." }

/-- The caller context captured by `newError` through the host
runtime: `runtime.Caller(2)` yields `file` and `line`,
`runtime.Callers(2, pcs)` fills the two program counters `pcs`, and
`runtime.FuncForPC` resolves them into the `frames`. -/
structure CallerCtx where
  file : String
  line : Int
  pcs : List Nat
  frames : List Trace

/-- `newError` (errors.go): builds the `Error` struct from the
captured caller context and the given cause, message, code and
operation; `Internal` is set exactly when the code is `INTERNAL`. -/
def newError (ctx : CallerCtx) (err : GoErr) (message code op : String) : ErrorV :=
  { Code := code
    Message := message
    Operation := op
    Err := err
    Additional := ctx.frames
    Internal := code == INTERNAL
    fileLine := ctx.file ++ ":" ++ toString ctx.line
    pcs := ctx.pcs }

/-- `NewInternal`: an `Error` with the `INTERNAL` code.  (Go returns
`&Error{...}`, never a nil pointer, so the result is a plain value.) -/
def NewInternal (ctx : CallerCtx) (err : GoErr) (message op : String) : ErrorV :=
  newError ctx err message INTERNAL op

/-- `NewConflict`: an `Error` with the `CONFLICT` code. -/
def NewConflict (ctx : CallerCtx) (err : GoErr) (message op : String) : ErrorV :=
  newError ctx err message CONFLICT op

/-- `NewInvalid`: an `Error` with the `INVALID` code. -/
def NewInvalid (ctx : CallerCtx) (err : GoErr) (message op : String) : ErrorV :=
  newError ctx err message INVALID op

/-- `NewNotFound`: an `Error` with the `NOTFOUND` code. -/
def NewNotFound (ctx : CallerCtx) (err : GoErr) (message op : String) : ErrorV :=
  newError ctx err message NOTFOUND op

/-- `NewUnknown`: an `Error` with the `UNKNOWN` code. -/
def NewUnknown (ctx : CallerCtx) (err : GoErr) (message op : String) : ErrorV :=
  newError ctx err message UNKNOWN op

/-- `NewMaximumAttempts`: an `Error` with the `MAXIMUMATTEMPTS` code. -/
def NewMaximumAttempts (ctx : CallerCtx) (err : GoErr) (message op : String) : ErrorV :=
  newError ctx err message MAXIMUMATTEMPTS op

/-- `NewExpired`: an `Error` with the `EXPIRED` code. -/
def NewExpired (ctx : CallerCtx) (err : GoErr) (message op : String) : ErrorV :=
  newError ctx err message EXPIRED op

/-- `NewE`: an `Error` with the current `DefaultCode`. -/
def NewE (g : Globals) (ctx : CallerCtx) (err : GoErr) (message op : String) : ErrorV :=
  newError ctx err message g.defaultCode op

/-- `ErrorF`: an `Error` with the current `DefaultCode` and a
formatted message.  `fmt.Sprintf` is a standard-library collaborator;
the parameter `formatted` stands for `fmt.Sprintf(format, args...)`. -/
def ErrorF (g : Globals) (ctx : CallerCtx) (err : GoErr) (op formatted : String) : ErrorV :=
  NewE g ctx err formatted op

/-- `Wrap`: nil when `err` is nil, otherwise `NewE(err, message, op)`.
The result models the possibly-nil `*Error` return value. -/
def Wrap (g : Globals) (ctx : CallerCtx) (err : GoErr) (message op : String) :
    Option ErrorV :=
  if err.isNil then none else some (NewE g ctx err message op)

/-- `Code` (utils.go): the code of the root error when available,
otherwise `INTERNAL`; the nil error yields the empty string. -/
def Code : GoErr → String
  | .nil => ""
  | .foreign _ => INTERNAL
  | .app c _ _ err _ _ _ _ =>
      if c ≠ "" then c
      else if !err.isNil then Code err
      else INTERNAL

/-- `Message` (utils.go): the human-readable message of the error
when available, otherwise the current `GlobalError` fallback; the nil
error yields the empty string. -/
def Message (g : Globals) : GoErr → String
  | .nil => ""
  | .foreign _ => g.globalError
  | .app _ m _ err _ _ _ _ =>
      if m ≠ "" then m
      else if !err.isNil then Message g err
      else g.globalError

/-- Go's `unicode.IsSpace` restricted to the Latin-1 range
(space, tab, newline, vertical tab, form feed, carriage return,
next line, no-break space); the wider Unicode White_Space code points
play no role in this development. -/
def goIsSpace (c : Char) : Bool :=
  c == ' ' || c == '\t' || c == '\n' || c == Char.ofNat 11 ||
  c == Char.ofNat 12 || c == '\r' || c == Char.ofNat 133 || c == Char.ofNat 160

/-- `strings.TrimSpace` on the character list: drop the leading and
trailing whitespace runs. -/
def trimSpaceList (l : List Char) : List Char :=
  ((l.dropWhile goIsSpace).reverse.dropWhile goIsSpace).reverse

/-- `strings.TrimSpace`. -/
def goTrimSpace (s : String) : String :=
  ⟨trimSpaceList s.data⟩

/-- `strings.TrimSuffix s t`: `s` without the final `t` when `s` ends
in `t`, otherwise `s` unchanged. -/
def goTrimSuffix (s t : String) : String :=
  if t.data.isSuffixOf s.data then ⟨s.data.take (s.data.length - t.data.length)⟩
  else s

/-- The `Error()` method of the `error` interface: a foreign error
renders its own text; a `*Error` renders, in order, the code in
angle brackets, the origin file:line, the operation, the cause's
rendering and the message (each only when present), then trims
surrounding whitespace and a trailing comma (errors.go
`(*Error).Error`).  Calling `Error()` on the nil interface would
panic in Go; the model returns the empty string for totality and the
case is never reached (every use is guarded by a nil check). -/
def GoErr.errString : GoErr → String
  | .nil => ""
  | .foreign m => m
  | .app code msg op err _ _ fileLine _ =>
      goTrimSuffix (goTrimSpace (
        (if code ≠ "" then "<" ++ code ++ "> " else "") ++
        (if fileLine ≠ "" then fileLine ++ " - " else "") ++
        (if op ≠ "" then op ++ ": " else "") ++
        (if !err.isNil then err.errString ++ ", " else "") ++
        (if msg ≠ "" then msg else ""))) ","

/-- The `Error()` method on `*Error`. -/
def ErrorV.Error (e : ErrorV) : String :=
  e.toGoErr.errString

/-- `HTTPStatusCode`: the HTTP response status for the error's code;
`http.StatusInternalServerError` (500) for every code outside the
five special cases (errors.go). -/
def ErrorV.HTTPStatusCode (e : ErrorV) : Nat :=
  if e.Code = CONFLICT then 409
  else if e.Code = INVALID then 400
  else if e.Code = NOTFOUND then 404
  else if e.Code = EXPIRED then 402
  else if e.Code = MAXIMUMATTEMPTS then 429
  else 500

/-- The private struct `wrappingError`: the JSON wire form, with the
cause and the origin flattened to strings. -/
structure WrappingError where
  Code : String
  Message : String
  Operation : String
  Err : String
  FileLine : String
  Additional : List Trace
  Internal : Bool

/-- `MarshalJSON`: build the `wrappingError` from the receiver; the
cause is rendered to its `Error()` string and the origin is attached
only when a cause is present (errors.go). -/
def ErrorV.MarshalJSON (e : ErrorV) : WrappingError :=
  let w : WrappingError :=
    { Code := e.Code
      Message := e.Message
      Operation := e.Operation
      Err := ""
      FileLine := ""
      Additional := e.Additional
      Internal := e.Internal }
  if !e.Err.isNil then { w with Err := e.Err.errString, FileLine := e.fileLine }
  else w

/-- `UnmarshalJSON` after a successful decode of the wire form `w`:
overwrite the receiver's `Code`, `Message`, `Operation`,
`Additional`, `Internal` and `fileLine` from `w`; rebuild the cause
as `errors.New(w.Err)` only when `w.Err` is non-empty, otherwise
leave the receiver's cause untouched; `pcs` is never written
(errors.go). -/
def ErrorV.UnmarshalJSON (e : ErrorV) (w : WrappingError) : ErrorV :=
  { Code := w.Code
    Message := w.Message
    Operation := w.Operation
    Err := if w.Err ≠ "" then .foreign w.Err else e.Err
    Additional := w.Additional
    Internal := w.Internal
    fileLine := w.FileLine
    pcs := e.pcs }

/-- A database scalar handed to `Scan`: SQL NULL, a byte slice
holding the JSON document of a `wrappingError` (the only bytes
`Value()` produces; byte slices with malformed JSON would fail in
`encoding/json` and are outside this model), or any value that is
not a byte sequence. -/
inductive DriverValue : Type where
  | null : DriverValue
  | bytes (w : WrappingError) : DriverValue
  | other : DriverValue

/-- `Scan` (sql.Scanner): NULL is a no-op; a non-byte-sequence value
is rejected; a byte slice is JSON-decoded into the receiver, which
dispatches to `UnmarshalJSON`.  The result carries the receiver's
state after the call next to Go's returned error. -/
def ErrorV.Scan (e : ErrorV) (v : DriverValue) : Except String ErrorV :=
  match v with
  | .null => .ok e
  | .bytes w => .ok (e.UnmarshalJSON w)
  | .other => .error "scan not supported for *errors.Error"

/-- `Value` (driver.Valuer): `json.Marshal` of the receiver, which
dispatches to `MarshalJSON`; the resulting byte slice holds the wire
form. -/
def ErrorV.Value (e : ErrorV) : WrappingError :=
  e.MarshalJSON

/-- The zero value of struct `Error`: a fresh instance, as decoded
into by `UnmarshalJSON`/`Scan` when starting from `new(Error)`. -/
def zeroError : ErrorV :=
  { Code := ""
    Message := ""
    Operation := ""
    Err := .nil
    Additional := []
    Internal := false
    fileLine := ""
    pcs := [] }

/-- A concrete caller context used to instantiate universally
quantified statements. -/
def ctxEx : CallerCtx :=
  { file := "svc/user.go"
    line := 42
    pcs := [7, 8]
    frames := [{ index := 0, function := "svc.Get", file := "svc/user.go", line := 42 }] }

/-- The original `Error` value for the lossy-cause counterexample:
a fresh receiver whose cause is `errors.New("")`, a legal non-nil
error rendering to the empty string. -/
def cexErr : ErrorV :=
  { zeroError with Err := GoErr.foreign "" }

/-- An `Error` value with a non-nil cause rendering to a non-empty
string, for instantiating the round-trip statements. -/
def causedErr : ErrorV :=
  { zeroError with Err := GoErr.foreign "boom" }

/-- A cause-free `Error` value with non-trivial remaining fields,
for instantiating the round-trip statements. -/
def noCauseErr : ErrorV :=
  { Code := "conflict"
    Message := "m"
    Operation := "op"
    Err := .nil
    Additional := [{ index := 0, function := "f", file := "g.go", line := 7 }]
    Internal := false
    fileLine := "g.go:7"
    pcs := [9] }

/-- A reused receiver with a previously set cause and program
counters, for the deserialisation frame-effect statements. -/
def reusedErr : ErrorV :=
  { zeroError with Err := GoErr.foreign "root", pcs := [3, 4] }

/-- A wire form whose `error` field is empty, for the
deserialisation frame-effect statements. -/
def wireEx : WrappingError :=
  { Code := "conflict"
    Message := "msg"
    Operation := "op"
    Err := ""
    FileLine := "f.go:1"
    Additional := []
    Internal := false }

/-- Characters of `strings.TrimSpace`'s output are characters of its
input. -/
theorem mem_of_mem_goTrimSpace {c : Char} {s : String}
    (h : c ∈ (goTrimSpace s).data) : c ∈ s.data := by
  have h1 : c ∈ trimSpaceList s.data := h
  unfold trimSpaceList at h1
  have h2 := (List.dropWhile_sublist goIsSpace).subset (List.mem_reverse.mp h1)
  exact (List.dropWhile_sublist goIsSpace).subset (List.mem_reverse.mp h2)

/-- Characters of `strings.TrimSuffix`'s output are characters of
its first input. -/
theorem mem_of_mem_goTrimSuffix {c : Char} {s t : String}
    (h : c ∈ (goTrimSuffix s t).data) : c ∈ s.data := by
  unfold goTrimSuffix at h
  split at h
  · exact List.take_subset _ _ h
  · exact h

/-- A character missing from both halves is missing from their
concatenation. -/
theorem noNL_append {c : Char} {s t : String} (hs : c ∉ s.data)
    (ht : c ∉ t.data) : c ∉ (s ++ t).data := by
  simp only [String.data_append, List.mem_append, not_or]
  exact ⟨hs, ht⟩

/-- A character missing from `s` is missing from a conditional piece
that is either `s` or empty. -/
theorem noNL_ite {c : Char} {b : Prop} [Decidable b] {s : String}
    (hs : c ∉ s.data) : c ∉ (if b then s else "").data := by
  split
  · exact hs
  · simp

/-- The rendering of a `*Error` through the `error` interface,
spelled out: the conditional pieces in display order, whitespace-
and trailing-comma-trimmed, with the message piece simplified from
`if msg ≠ "" then msg else ""` to `msg`. -/
theorem errString_app (e : ErrorV) :
    e.toGoErr.errString =
      goTrimSuffix (goTrimSpace (
        (if e.Code ≠ "" then "<" ++ e.Code ++ "> " else "") ++
        (if e.fileLine ≠ "" then e.fileLine ++ " - " else "") ++
        (if e.Operation ≠ "" then e.Operation ++ ": " else "") ++
        (if !e.Err.isNil then GoErr.errString e.Err ++ ", " else "") ++
        e.Message)) "," := by
  have hm : (if e.Message ≠ "" then e.Message else "") = e.Message := by
    by_cases h : e.Message = "" <;> simp [h]
  simp only [ErrorV.toGoErr, GoErr.errString]
  rw [hm]

/-- Claim C1: each of the seven named constructors returns an
`Error` value (non-nil by construction) whose code is the string its
name implies, and `NewE`/`ErrorF` return one whose code is the
current value of `DefaultCode`. -/
theorem constructor_code_contract :
    INTERNAL = "internal" ∧ CONFLICT = "conflict" ∧ INVALID = "invalid" ∧
    NOTFOUND = "not_found" ∧ UNKNOWN = "unknown" ∧
    MAXIMUMATTEMPTS = "maximum_attempts" ∧ EXPIRED = "expired" ∧
    ∀ (g : Globals) (ctx : CallerCtx) (err : GoErr) (message op formatted : String),
      (NewInternal ctx err message op).Code = INTERNAL ∧
      (NewConflict ctx err message op).Code = CONFLICT ∧
      (NewInvalid ctx err message op).Code = INVALID ∧
      (NewNotFound ctx err message op).Code = NOTFOUND ∧
      (NewUnknown ctx err message op).Code = UNKNOWN ∧
      (NewMaximumAttempts ctx err message op).Code = MAXIMUMATTEMPTS ∧
      (NewExpired ctx err message op).Code = EXPIRED ∧
      (NewE g ctx err message op).Code = g.defaultCode ∧
      (ErrorF g ctx err op formatted).Code = g.defaultCode :=
  ⟨rfl, rfl, rfl, rfl, rfl, rfl, rfl, fun _ _ _ _ _ _ =>
    ⟨rfl, rfl, rfl, rfl, rfl, rfl, rfl, rfl, rfl⟩⟩

/-- Claim C2: `Wrap` of the nil error is nil; `Wrap` of a non-nil
error is non-nil and its cause field is exactly that error. -/
theorem wrap_contract :
    (∀ (g : Globals) (ctx : CallerCtx) (message op : String),
      Wrap g ctx GoErr.nil message op = none) ∧
    ∀ (g : Globals) (ctx : CallerCtx) (err : GoErr) (message op : String),
      err.isNil = false →
      ∃ w : ErrorV, Wrap g ctx err message op = some w ∧ w.Err = err := by
  constructor
  · intro g ctx message op
    rfl
  · intro g ctx err message op h
    refine ⟨NewE g ctx err message op, ?_, rfl⟩
    simp [Wrap, h]

/-- Witness for claim C2 at a concrete non-nil cause. -/
theorem wrap_contract_witness :
    ∃ w : ErrorV, Wrap Globals.init ctxEx (GoErr.foreign "boom") "m" "op" = some w ∧
      w.Err = GoErr.foreign "boom" :=
  wrap_contract.2 Globals.init ctxEx (GoErr.foreign "boom") "m" "op" rfl

/-- Claim C3: `Code` of nil is empty; a `*Error` with a non-empty
code yields that code; with an empty code and a non-nil cause it
recurses on the cause; every remaining case, the foreign error
included, yields `INTERNAL`. -/
theorem code_traversal_contract :
    Code GoErr.nil = "" ∧
    (∀ e : ErrorV, e.Code ≠ "" → Code e.toGoErr = e.Code) ∧
    (∀ e : ErrorV, e.Code = "" → e.Err.isNil = false →
      Code e.toGoErr = Code e.Err) ∧
    (∀ e : ErrorV, e.Code = "" → e.Err.isNil = true →
      Code e.toGoErr = INTERNAL) ∧
    (∀ m : String, Code (GoErr.foreign m) = INTERNAL) := by
  refine ⟨rfl, ?_, ?_, ?_, fun m => rfl⟩
  · intro e h
    simp [Code, ErrorV.toGoErr, h]
  · intro e h1 h2
    simp [Code, ErrorV.toGoErr, h1, h2]
  · intro e h1 h2
    simp [Code, ErrorV.toGoErr, h1, h2]

/-- Witness for claim C3: the three guarded cases at concrete
inputs. -/
theorem code_traversal_contract_witness :
    Code (ErrorV.toGoErr { zeroError with Code := CONFLICT }) = CONFLICT ∧
    Code (ErrorV.toGoErr { zeroError with Err := GoErr.foreign "x" }) =
      Code (GoErr.foreign "x") ∧
    Code (ErrorV.toGoErr zeroError) = INTERNAL :=
  ⟨code_traversal_contract.2.1 { zeroError with Code := CONFLICT } (by decide),
   code_traversal_contract.2.2.1 { zeroError with Err := GoErr.foreign "x" }
     (by decide) (by decide),
   code_traversal_contract.2.2.2.1 zeroError (by decide) (by decide)⟩

/-- Claim C4: `Message` of nil is empty; a `*Error` with a non-empty
message yields that message; with an empty message and a non-nil
cause it recurses on the cause; every remaining case, the foreign
error included, yields the current `GlobalError` fallback, whose
initial value is "An error has occurred.". -/
theorem message_traversal_contract :
    (∀ g : Globals, Message g GoErr.nil = "") ∧
    (∀ (g : Globals) (e : ErrorV), e.Message ≠ "" →
      Message g e.toGoErr = e.Message) ∧
    (∀ (g : Globals) (e : ErrorV), e.Message = "" → e.Err.isNil = false →
      Message g e.toGoErr = Message g e.Err) ∧
    (∀ (g : Globals) (e : ErrorV), e.Message = "" → e.Err.isNil = true →
      Message g e.toGoErr = g.globalError) ∧
    (∀ (g : Globals) (m : String), Message g (GoErr.foreign m) = g.globalError) ∧
    Globals.init.globalError = "An error has occurred." := by
  refine ⟨fun g => rfl, ?_, ?_, ?_, fun g m => rfl, rfl⟩
  · intro g e h
    simp [Message, ErrorV.toGoErr, h]
  · intro g e h1 h2
    simp [Message, ErrorV.toGoErr, h1, h2]
  · intro g e h1 h2
    simp [Message, ErrorV.toGoErr, h1, h2]

/-- Witness for claim C4: the three guarded cases at concrete
inputs, under the initial globals (an all-empty chain falls back to
the configured string). -/
theorem message_traversal_contract_witness :
    Message Globals.init (ErrorV.toGoErr { zeroError with Message := "hi" }) = "hi" ∧
    Message Globals.init (ErrorV.toGoErr { zeroError with Err := ErrorV.toGoErr zeroError }) =
      Message Globals.init (ErrorV.toGoErr zeroError) ∧
    Message Globals.init (ErrorV.toGoErr zeroError) = Globals.init.globalError :=
  ⟨message_traversal_contract.2.1 Globals.init { zeroError with Message := "hi" }
     (by decide),
   message_traversal_contract.2.2.1 Globals.init
     { zeroError with Err := ErrorV.toGoErr zeroError } (by decide) (by decide),
   message_traversal_contract.2.2.2.1 Globals.init zeroError (by decide) (by decide)⟩

/-- Claim C5: `HTTPStatusCode` maps the five special codes to
409/400/404/402/429, every other code (`INTERNAL`, `UNKNOWN` and the
empty code included) to 500, and reads nothing but the receiver's
code. -/
theorem httpStatusCode_contract (e : ErrorV) :
    (e.Code = CONFLICT → e.HTTPStatusCode = 409) ∧
    (e.Code = INVALID → e.HTTPStatusCode = 400) ∧
    (e.Code = NOTFOUND → e.HTTPStatusCode = 404) ∧
    (e.Code = EXPIRED → e.HTTPStatusCode = 402) ∧
    (e.Code = MAXIMUMATTEMPTS → e.HTTPStatusCode = 429) ∧
    (e.Code = INTERNAL → e.HTTPStatusCode = 500) ∧
    (e.Code = UNKNOWN → e.HTTPStatusCode = 500) ∧
    (e.Code = "" → e.HTTPStatusCode = 500) ∧
    (e.Code ≠ CONFLICT → e.Code ≠ INVALID → e.Code ≠ NOTFOUND →
      e.Code ≠ EXPIRED → e.Code ≠ MAXIMUMATTEMPTS → e.HTTPStatusCode = 500) ∧
    (∀ f : ErrorV, e.Code = f.Code → e.HTTPStatusCode = f.HTTPStatusCode) := by
  refine ⟨?_, ?_, ?_, ?_, ?_, ?_, ?_, ?_, ?_, ?_⟩
  · intro h
    simp only [ErrorV.HTTPStatusCode, h]
    decide
  · intro h
    simp only [ErrorV.HTTPStatusCode, h]
    decide
  · intro h
    simp only [ErrorV.HTTPStatusCode, h]
    decide
  · intro h
    simp only [ErrorV.HTTPStatusCode, h]
    decide
  · intro h
    simp only [ErrorV.HTTPStatusCode, h]
    decide
  · intro h
    simp only [ErrorV.HTTPStatusCode, h]
    decide
  · intro h
    simp only [ErrorV.HTTPStatusCode, h]
    decide
  · intro h
    simp only [ErrorV.HTTPStatusCode, h]
    decide
  · intro h1 h2 h3 h4 h5
    simp [ErrorV.HTTPStatusCode, h1, h2, h3, h4, h5]
  · intro f h
    simp only [ErrorV.HTTPStatusCode, h]

/-- Witness for claim C5: a special code and a default-branch code
at concrete inputs. -/
theorem httpStatusCode_contract_witness :
    ({ zeroError with Code := CONFLICT } : ErrorV).HTTPStatusCode = 409 ∧
    ({ zeroError with Code := UNKNOWN } : ErrorV).HTTPStatusCode = 500 ∧
    ({ zeroError with Code := "weird" } : ErrorV).HTTPStatusCode = 500 :=
  ⟨(httpStatusCode_contract { zeroError with Code := CONFLICT }).1 rfl,
   (httpStatusCode_contract { zeroError with Code := UNKNOWN }).2.2.2.2.2.2.1 rfl,
   (httpStatusCode_contract { zeroError with Code := "weird" }).2.2.2.2.2.2.2.2.1
     (by decide) (by decide) (by decide) (by decide) (by decide)⟩

/-- Claim C6: `Error()` renders, in this fixed order, the code in
angle brackets, the captured origin, the operation, the cause's
`Error()` string with a trailing comma, and the message — each piece
only when present — then trims surrounding whitespace and a trailing
comma. -/
theorem error_rendering_contract (e : ErrorV) :
    e.Error =
      goTrimSuffix (goTrimSpace (
        (if e.Code ≠ "" then "<" ++ e.Code ++ "> " else "") ++
        (if e.fileLine ≠ "" then e.fileLine ++ " - " else "") ++
        (if e.Operation ≠ "" then e.Operation ++ ": " else "") ++
        (if !e.Err.isNil then GoErr.errString e.Err ++ ", " else "") ++
        e.Message)) "," := by
  simp only [ErrorV.Error]
  exact errString_app e

/-- Counterexample for claim C7 as stated: a non-nil cause rendering
to the empty string is not rebuilt by decode — the decoded value has
no cause at all, rather than an opaque leaf whose text matches the
original cause's rendering. -/
theorem json_roundtrip_cause_cex :
    cexErr.Err.isNil = false ∧
    (zeroError.UnmarshalJSON cexErr.MarshalJSON).Err = GoErr.nil ∧
    (zeroError.UnmarshalJSON cexErr.MarshalJSON).Err ≠
      GoErr.foreign (GoErr.errString cexErr.Err) := by
  refine ⟨rfl, rfl, fun h => ?_⟩
  have h2 : GoErr.isNil (GoErr.foreign (GoErr.errString cexErr.Err)) = true := by
    rw [← h]
    rfl
  simp [GoErr.isNil] at h2

/-- Claim C7 (amended): encode-then-decode into a fresh value
reproduces code, message, operation, internal and the frame list
exactly when there is no cause; when the cause is non-nil and
renders to a non-empty string, the decoded cause is exactly an
opaque leaf wrapping that rendering (so the two render equal, and
the cause's own code, type and deeper chain are gone); when the
cause renders to the empty string, the decoded value keeps the fresh
receiver's nil cause. -/
theorem json_roundtrip_contract :
    (∀ e : ErrorV, e.Err = GoErr.nil →
      (zeroError.UnmarshalJSON e.MarshalJSON).Code = e.Code ∧
      (zeroError.UnmarshalJSON e.MarshalJSON).Message = e.Message ∧
      (zeroError.UnmarshalJSON e.MarshalJSON).Operation = e.Operation ∧
      (zeroError.UnmarshalJSON e.MarshalJSON).Internal = e.Internal ∧
      (zeroError.UnmarshalJSON e.MarshalJSON).Additional = e.Additional ∧
      (zeroError.UnmarshalJSON e.MarshalJSON).Err = GoErr.nil) ∧
    (∀ e : ErrorV, e.Err.isNil = false → GoErr.errString e.Err ≠ "" →
      (zeroError.UnmarshalJSON e.MarshalJSON).Err =
        GoErr.foreign (GoErr.errString e.Err) ∧
      GoErr.errString (zeroError.UnmarshalJSON e.MarshalJSON).Err =
        GoErr.errString e.Err ∧
      (zeroError.UnmarshalJSON e.MarshalJSON).Code = e.Code ∧
      (zeroError.UnmarshalJSON e.MarshalJSON).Message = e.Message ∧
      (zeroError.UnmarshalJSON e.MarshalJSON).Operation = e.Operation ∧
      (zeroError.UnmarshalJSON e.MarshalJSON).Internal = e.Internal ∧
      (zeroError.UnmarshalJSON e.MarshalJSON).Additional = e.Additional) ∧
    (∀ e : ErrorV, e.Err.isNil = false → GoErr.errString e.Err = "" →
      (zeroError.UnmarshalJSON e.MarshalJSON).Err = GoErr.nil) := by
  refine ⟨?_, ?_, ?_⟩
  · intro e h
    refine ⟨?_, ?_, ?_, ?_, ?_, ?_⟩ <;>
      simp [ErrorV.MarshalJSON, ErrorV.UnmarshalJSON, h, GoErr.isNil, zeroError]
  · intro e h1 h2
    refine ⟨?_, ?_, ?_, ?_, ?_, ?_, ?_⟩ <;>
      simp [ErrorV.MarshalJSON, ErrorV.UnmarshalJSON, h1, h2, GoErr.errString]
  · intro e h1 h2
    simp [ErrorV.MarshalJSON, ErrorV.UnmarshalJSON, h1, h2, zeroError]

/-- Witness for claim C7: a cause-free value and a value with a
concrete non-empty-rendering cause. -/
theorem json_roundtrip_contract_witness :
    ((zeroError.UnmarshalJSON noCauseErr.MarshalJSON).Code = noCauseErr.Code ∧
     (zeroError.UnmarshalJSON noCauseErr.MarshalJSON).Message = noCauseErr.Message ∧
     (zeroError.UnmarshalJSON noCauseErr.MarshalJSON).Operation = noCauseErr.Operation ∧
     (zeroError.UnmarshalJSON noCauseErr.MarshalJSON).Internal = noCauseErr.Internal ∧
     (zeroError.UnmarshalJSON noCauseErr.MarshalJSON).Additional = noCauseErr.Additional ∧
     (zeroError.UnmarshalJSON noCauseErr.MarshalJSON).Err = GoErr.nil) ∧
    ((zeroError.UnmarshalJSON causedErr.MarshalJSON).Err =
       GoErr.foreign (GoErr.errString causedErr.Err) ∧
     GoErr.errString (zeroError.UnmarshalJSON causedErr.MarshalJSON).Err =
       GoErr.errString causedErr.Err ∧
     (zeroError.UnmarshalJSON causedErr.MarshalJSON).Code = causedErr.Code ∧
     (zeroError.UnmarshalJSON causedErr.MarshalJSON).Message = causedErr.Message ∧
     (zeroError.UnmarshalJSON causedErr.MarshalJSON).Operation = causedErr.Operation ∧
     (zeroError.UnmarshalJSON causedErr.MarshalJSON).Internal = causedErr.Internal ∧
     (zeroError.UnmarshalJSON causedErr.MarshalJSON).Additional = causedErr.Additional) :=
  ⟨json_roundtrip_contract.1 noCauseErr rfl,
   json_roundtrip_contract.2.1 causedErr rfl (by decide)⟩

/-- Claim C8: `Scan` of SQL NULL is a no-op returning no error and
leaving the receiver unchanged; `Scan` of a non-byte-sequence value
fails; write-scalar (`Value`) followed by read-scalar (`Scan`) into
a fresh instance lands exactly where the JSON round-trip does. -/
theorem scan_value_contract :
    (∀ e : ErrorV, e.Scan DriverValue.null = Except.ok e) ∧
    (∀ e : ErrorV, e.Scan DriverValue.other =
      Except.error "scan not supported for *errors.Error") ∧
    (∀ e : ErrorV, zeroError.Scan (DriverValue.bytes e.Value) =
      Except.ok (zeroError.UnmarshalJSON e.MarshalJSON)) :=
  ⟨fun _ => rfl, fun _ => rfl, fun _ => rfl⟩

/-- Counterexample for claim C9 as stated: `Error()` keeps a newline
embedded in the cause's message (only the string's ends are
trimmed), and on the all-empty value it returns the empty string. -/
theorem error_single_line_cex :
    '\n' ∈ (ErrorV.Error { zeroError with Err := GoErr.foreign "a\nb" }).data ∧
    ErrorV.Error zeroError = "" := by
  exact ⟨by decide, rfl⟩

/-- Claim C9 (amended): `Error()` contains no newline whenever none
of the code, origin, operation, message, or the cause's rendered
string contains one; it can be empty — it is for the all-empty
value — and can carry newlines embedded in those components. -/
theorem error_single_line_contract :
    (∀ e : ErrorV,
      '\n' ∉ e.Code.data → '\n' ∉ e.fileLine.data → '\n' ∉ e.Operation.data →
      '\n' ∉ (GoErr.errString e.Err).data → '\n' ∉ e.Message.data →
      '\n' ∉ e.Error.data) ∧
    ErrorV.Error zeroError = "" := by
  constructor
  · intro e h1 h2 h3 h4 h5
    simp only [ErrorV.Error]
    rw [errString_app]
    intro hmem
    have hbuf := mem_of_mem_goTrimSpace (mem_of_mem_goTrimSuffix hmem)
    exact noNL_append (noNL_append (noNL_append (noNL_append
      (noNL_ite (noNL_append (noNL_append (by decide) h1) (by decide)))
      (noNL_ite (noNL_append h2 (by decide))))
      (noNL_ite (noNL_append h3 (by decide))))
      (noNL_ite (noNL_append h4 (by decide)))) h5 hbuf
  · rfl

/-- Witness for claim C9 at a concrete constructed error. -/
theorem error_single_line_contract_witness :
    '\n' ∉ (ErrorV.Error (NewNotFound ctxEx GoErr.nil "user missing" "UserService.Get")).data :=
  error_single_line_contract.1
    (NewNotFound ctxEx GoErr.nil "user missing" "UserService.Get")
    (by decide) (by decide) (by decide) (by decide) (by decide)

/-- Claim C10: a successful decode whose wire `error` field is empty
overwrites code, message, operation, frames, internal and origin
from the wire form, but leaves the receiver's existing cause and
stored program counters untouched — in particular a previously set
cause is not cleared. -/
theorem unmarshal_reuse_contract (e : ErrorV) (w : WrappingError)
    (h : w.Err = "") :
    (e.UnmarshalJSON w).Code = w.Code ∧
    (e.UnmarshalJSON w).Message = w.Message ∧
    (e.UnmarshalJSON w).Operation = w.Operation ∧
    (e.UnmarshalJSON w).Additional = w.Additional ∧
    (e.UnmarshalJSON w).Internal = w.Internal ∧
    (e.UnmarshalJSON w).fileLine = w.FileLine ∧
    (e.UnmarshalJSON w).Err = e.Err ∧
    (e.UnmarshalJSON w).pcs = e.pcs := by
  refine ⟨rfl, rfl, rfl, rfl, rfl, rfl, ?_, rfl⟩
  simp [ErrorV.UnmarshalJSON, h]

/-- Witness for claim C10: decoding into a reused receiver with a
previously set cause and program counters. -/
theorem unmarshal_reuse_contract_witness :
    (reusedErr.UnmarshalJSON wireEx).Code = wireEx.Code ∧
    (reusedErr.UnmarshalJSON wireEx).Message = wireEx.Message ∧
    (reusedErr.UnmarshalJSON wireEx).Operation = wireEx.Operation ∧
    (reusedErr.UnmarshalJSON wireEx).Additional = wireEx.Additional ∧
    (reusedErr.UnmarshalJSON wireEx).Internal = wireEx.Internal ∧
    (reusedErr.UnmarshalJSON wireEx).fileLine = wireEx.FileLine ∧
    (reusedErr.UnmarshalJSON wireEx).Err = reusedErr.Err ∧
    (reusedErr.UnmarshalJSON wireEx).pcs = reusedErr.pcs :=
  unmarshal_reuse_contract reusedErr wireEx rfl
